import Mathlib

/-!
Verification of the Resume Builder client document model, section editors,
persistence gateway and store, as a shallow embedding of the JavaScript
source (src/src/App.js, src/src/components/Experience.jsx,
src/src/components/Education.jsx, the Skills component, the Preview
component, and src/server.js with its resumeService client).

Machine strings are modelled as Lean String, JS arrays as List, Date
values as Nat ticks, and JS object spread as record update.  Fallible
paths (a JS TypeError on out-of-range indexing, a thrown Error) are
modelled with Option and Except.
-/

/-- One work-experience entry, as in the initial state of App.js and the
Mongoose schema of server.js. -/
structure ExperienceEntry where
  company : String
  position : String
  duration : String
  responsibilities : List String
deriving DecidableEq, Repr

/-- One education entry, as in App.js and the Mongoose schema. -/
structure EducationEntry where
  institution : String
  degree : String
  year : String
deriving DecidableEq, Repr

/-- The client Document Model: the resumeData state object of App.js. -/
structure ResumeDocument where
  name : String
  title : String
  phone : String
  email : String
  location : String
  website : String
  summary : String
  experiences : List ExperienceEntry
  education : List EducationEntry
  skills : List String
deriving DecidableEq, Repr

/-- The initial resumeData state of App.js (all strings empty, one blank
experience with one blank responsibility, one blank education entry, no
skills). -/
def initialResumeData : ResumeDocument :=
  { name := ""
    title := ""
    phone := ""
    email := ""
    location := ""
    website := ""
    summary := ""
    experiences := [{ company := "", position := "", duration := "",
                      responsibilities := [""] }]
    education := [{ institution := "", degree := "", year := "" }]
    skills := [] }

/-- Names of the top-level fields of the Document Model; the section
argument of updateResumeData ranges over these. -/
inductive SectionName
  | name | title | phone | email | location | website | summary
  | experiences | education | skills
deriving DecidableEq, Repr

/-- The value stored in one top-level field, tagged by shape. -/
inductive FieldValue
  | str (s : String)
  | exps (l : List ExperienceEntry)
  | edus (l : List EducationEntry)
  | strs (l : List String)
deriving DecidableEq, Repr

/-- Read one top-level field of a document. -/
def getField (d : ResumeDocument) : SectionName → FieldValue
  | .name => .str d.name
  | .title => .str d.title
  | .phone => .str d.phone
  | .email => .str d.email
  | .location => .str d.location
  | .website => .str d.website
  | .summary => .str d.summary
  | .experiences => .exps d.experiences
  | .education => .edus d.education
  | .skills => .strs d.skills

/-- A named-section replacement: the call updateResumeData(section, data)
with a non-null section string, one constructor per field the editors
target. -/
inductive SectionUpdate
  | setName (v : String)
  | setTitle (v : String)
  | setPhone (v : String)
  | setEmail (v : String)
  | setLocation (v : String)
  | setWebsite (v : String)
  | setSummary (v : String)
  | setExperiences (v : List ExperienceEntry)
  | setEducation (v : List EducationEntry)
  | setSkills (v : List String)
deriving DecidableEq, Repr

/-- The field a section update targets. -/
def SectionUpdate.sectionName : SectionUpdate → SectionName
  | .setName _ => .name
  | .setTitle _ => .title
  | .setPhone _ => .phone
  | .setEmail _ => .email
  | .setLocation _ => .location
  | .setWebsite _ => .website
  | .setSummary _ => .summary
  | .setExperiences _ => .experiences
  | .setEducation _ => .education
  | .setSkills _ => .skills

/-- The value a section update carries. -/
def SectionUpdate.value : SectionUpdate → FieldValue
  | .setName v => .str v
  | .setTitle v => .str v
  | .setPhone v => .str v
  | .setEmail v => .str v
  | .setLocation v => .str v
  | .setWebsite v => .str v
  | .setSummary v => .str v
  | .setExperiences v => .exps v
  | .setEducation v => .edus v
  | .setSkills v => .strs v

/-- A partial-document patch, the data argument of
updateResumeData(null, data): a JS object whose present fields overwrite
same-named document fields under object spread. -/
structure Patch where
  name : Option String := none
  title : Option String := none
  phone : Option String := none
  email : Option String := none
  location : Option String := none
  website : Option String := none
  summary : Option String := none
  experiences : Option (List ExperienceEntry) := none
  education : Option (List EducationEntry) := none
  skills : Option (List String) := none
deriving DecidableEq, Repr

/-- The value a patch supplies for a given field, if any. -/
def patchField (p : Patch) : SectionName → Option FieldValue
  | .name => p.name.map .str
  | .title => p.title.map .str
  | .phone => p.phone.map .str
  | .email => p.email.map .str
  | .location => p.location.map .str
  | .website => p.website.map .str
  | .summary => p.summary.map .str
  | .experiences => p.experiences.map .exps
  | .education => p.education.map .edus
  | .skills => p.skills.map .strs

/-- JS object spread of a patch over a document: patch-present fields win,
absent fields keep the document value. -/
def mergePatch (d : ResumeDocument) (p : Patch) : ResumeDocument :=
  { name := p.name.getD d.name
    title := p.title.getD d.title
    phone := p.phone.getD d.phone
    email := p.email.getD d.email
    location := p.location.getD d.location
    website := p.website.getD d.website
    summary := p.summary.getD d.summary
    experiences := p.experiences.getD d.experiences
    education := p.education.getD d.education
    skills := p.skills.getD d.skills }

/-- Overwrite exactly one named field, the computed-key spread branch of
updateResumeData. -/
def applySection (d : ResumeDocument) : SectionUpdate → ResumeDocument
  | .setName v => { d with name := v }
  | .setTitle v => { d with title := v }
  | .setPhone v => { d with phone := v }
  | .setEmail v => { d with email := v }
  | .setLocation v => { d with location := v }
  | .setWebsite v => { d with website := v }
  | .setSummary v => { d with summary := v }
  | .setExperiences v => { d with experiences := v }
  | .setEducation v => { d with education := v }
  | .setSkills v => { d with skills := v }

/-- The argument pair of updateResumeData: section null with a patch, or a
named section with a replacement value. -/
inductive UpdateArg
  | merge (p : Patch)
  | replace (u : SectionUpdate)
deriving DecidableEq, Repr

/-- updateResumeData of App.js: the single Synchronizer through which all
Document Model mutations flow. -/
def updateResumeData (d : ResumeDocument) : UpdateArg → ResumeDocument
  | .merge p => mergePatch d p
  | .replace u => applySection d u

/-- Aux for the JS idiom list.filter((_, i) => i !== index): keep every
element whose running position differs from index, counting from i. -/
def filterOutIndexGo {α : Type} (i index : Nat) : List α → List α
  | [] => []
  | x :: xs =>
      if i ≠ index then x :: filterOutIndexGo (i + 1) index xs
      else filterOutIndexGo (i + 1) index xs

/-- The JS call list.filter((_, i) => i !== index). -/
def filterOutIndex {α : Type} (l : List α) (index : Nat) : List α :=
  filterOutIndexGo 0 index l

/-- removeExperience of Experience.jsx: drop the entry at index, but only
when more than one experience exists; otherwise no update is dispatched. -/
def removeExperience (d : ResumeDocument) (index : Nat) : ResumeDocument :=
  if 1 < d.experiences.length then
    updateResumeData d (.replace (.setExperiences
      (filterOutIndex d.experiences index)))
  else d

/-- removeEducation of Education.jsx: same guard on the education list. -/
def removeEducation (d : ResumeDocument) (index : Nat) : ResumeDocument :=
  if 1 < d.education.length then
    updateResumeData d (.replace (.setEducation
      (filterOutIndex d.education index)))
  else d

/-- removeResponsibility of Experience.jsx: indexes the experience at
expIndex (a JS TypeError when out of range, modelled as none), and drops
the responsibility at respIndex only when more than one exists. -/
def removeResponsibility (d : ResumeDocument) (expIndex respIndex : Nat) :
    Option ResumeDocument :=
  match d.experiences[expIndex]? with
  | none => none
  | some exp =>
      if 1 < exp.responsibilities.length then
        some (updateResumeData d (.replace (.setExperiences
          (d.experiences.set expIndex
            { exp with responsibilities :=
                filterOutIndex exp.responsibilities respIndex }))))
      else some d

/-- handleAddSkill of the Skills component: trim the typed skill, and
append it only when non-empty after trimming and not already present by
exact match. -/
def handleAddSkill (d : ResumeDocument) (newSkill : String) : ResumeDocument :=
  let trimmedSkill := newSkill.trim
  if trimmedSkill ≠ "" ∧ ¬ d.skills.contains trimmedSkill then
    updateResumeData d (.replace (.setSkills (d.skills ++ [trimmedSkill])))
  else d

/-- addSuggestion of the Skills component: append a catalog skill verbatim
unless already present. -/
def addSuggestion (d : ResumeDocument) (skill : String) : ResumeDocument :=
  if ¬ d.skills.contains skill then
    updateResumeData d (.replace (.setSkills (d.skills ++ [skill])))
  else d

/-- A request the client issues to the Store. -/
inductive ClientRequest
  | post (payload : ResumeDocument)
  | put (id : String) (payload : ResumeDocument)
deriving DecidableEq, Repr

/-- resumeService.saveResume of the client service: throws when name or
email is empty (JS falsiness of the empty string) before any request is
made, otherwise issues the POST request with the document as body. -/
def saveResumeClient (resumeData : ResumeDocument) :
    Except String ClientRequest :=
  if resumeData.name = "" ∨ resumeData.email = "" then
    .error "Name and email are required fields"
  else
    .ok (.post resumeData)

/-- resumeService.updateResume of the client service: throws when the id
is falsy, otherwise issues the PUT request. -/
def updateResumeClient (resumeId : String) (resumeData : ResumeDocument) :
    Except String ClientRequest :=
  if resumeId = "" then .error "Resume ID is required"
  else .ok (.put resumeId resumeData)

/-- handleSave of the Preview component: returns early, with only a user
message and no request (none), when name or email is empty; otherwise
dispatches the update branch when a resume id is held, else the create
branch. -/
def handleSave (resumeId : Option String) (data : ResumeDocument) :
    Option (Except String ClientRequest) :=
  if data.name = "" ∨ data.email = "" then none
  else
    some (match resumeId with
      | some rid => updateResumeClient rid data
      | none => saveResumeClient data)

/-- A stored record of the resumes collection: the schema fields plus the
generated identifier and the timestamp fields, Dates modelled as Nat. -/
structure StoredResume where
  _id : String
  name : String
  title : String
  phone : String
  email : String
  location : String
  website : String
  summary : String
  experiences : List ExperienceEntry
  education : List EducationEntry
  skills : List String
  createdAt : Nat
  updatedAt : Nat
deriving DecidableEq, Repr

/-- A JSON request body for POST or PUT /api/resumes: the document fields
plus the optional timestamp fields, which the schema also declares and a
client may therefore supply. -/
structure RequestBody where
  name : String
  title : String
  phone : String
  email : String
  location : String
  website : String
  summary : String
  experiences : List ExperienceEntry
  education : List EducationEntry
  skills : List String
  createdAt : Option Nat
  updatedAt : Option Nat
deriving DecidableEq, Repr

/-- The body the client sends for a document: JSON of the Document Model,
which carries no timestamp fields. -/
def toRequestBody (d : ResumeDocument) : RequestBody :=
  { name := d.name
    title := d.title
    phone := d.phone
    email := d.email
    location := d.location
    website := d.website
    summary := d.summary
    experiences := d.experiences
    education := d.education
    skills := d.skills
    createdAt := none
    updatedAt := none }

/-- Mongoose required-path check over the experience subdocuments: for a
String path, required fails on the empty string. -/
def experiencesRequiredErrors (i : Nat) : List ExperienceEntry → List String
  | [] => []
  | e :: rest =>
      (if e.company = "" then ["experiences." ++ toString i ++ ".company"]
       else []) ++
      (if e.position = "" then ["experiences." ++ toString i ++ ".position"]
       else []) ++
      (if e.duration = "" then ["experiences." ++ toString i ++ ".duration"]
       else []) ++
      experiencesRequiredErrors (i + 1) rest

/-- Mongoose required-path check over the education subdocuments. -/
def educationRequiredErrors (i : Nat) : List EducationEntry → List String
  | [] => []
  | e :: rest =>
      (if e.institution = ""
       then ["education." ++ toString i ++ ".institution"] else []) ++
      (if e.degree = "" then ["education." ++ toString i ++ ".degree"]
       else []) ++
      (if e.year = "" then ["education." ++ toString i ++ ".year"]
       else []) ++
      educationRequiredErrors (i + 1) rest

/-- The required paths of resumeSchema that a body fails to satisfy: name
and email at top level, and the required subdocument paths. -/
def requiredErrors (b : RequestBody) : List String :=
  (if b.name = "" then ["name"] else []) ++
  (if b.email = "" then ["email"] else []) ++
  experiencesRequiredErrors 0 b.experiences ++
  educationRequiredErrors 0 b.education

/-- The summary projection of GET /api/resumes, the select of name, title,
email, createdAt and updatedAt. -/
structure ResumeSummary where
  name : String
  title : String
  email : String
  createdAt : Nat
  updatedAt : Nat
deriving DecidableEq, Repr

/-- Project a stored record to its listing summary. -/
def summarize (r : StoredResume) : ResumeSummary :=
  { name := r.name
    title := r.title
    email := r.email
    createdAt := r.createdAt
    updatedAt := r.updatedAt }

/-- A response of the REST surface of server.js, tagged by status. -/
inductive ApiResponse
  | created (data : StoredResume)
  | okResume (data : StoredResume)
  | okList (data : List ResumeSummary)
  | badRequest (message : String) (missingPaths : List String)
  | notFound (message : String)
deriving DecidableEq, Repr

/-- new Resume(req.body) followed by save(): schema defaults fill
createdAt and updatedAt from the clock only when the body omits them, and
the pre-save hook then overwrites updatedAt with the clock
unconditionally. -/
def newResume (nextId : String) (now : Nat) (b : RequestBody) :
    StoredResume :=
  { _id := nextId
    name := b.name
    title := b.title
    phone := b.phone
    email := b.email
    location := b.location
    website := b.website
    summary := b.summary
    experiences := b.experiences
    education := b.education
    skills := b.skills
    createdAt := b.createdAt.getD now
    updatedAt := now }

/-- POST /api/resumes: validate the required paths during save; on success
append the new record and answer 201, otherwise answer 400 with the
validation message and leave the collection unchanged. -/
def postResume (store : List StoredResume) (nextId : String) (now : Nat)
    (b : RequestBody) : ApiResponse × List StoredResume :=
  let missing := requiredErrors b
  if missing = [] then
    let r := newResume nextId now b
    (.created r, store ++ [r])
  else
    (.badRequest "Failed to save resume" missing, store)

/-- The record produced by findByIdAndUpdate with update document
spread-of-body then updatedAt set to the clock: every body field is
written, updatedAt is the clock regardless of the body, and createdAt is
taken from the body when supplied, else kept from the old record. -/
def applyUpdate (old : StoredResume) (now : Nat) (b : RequestBody) :
    StoredResume :=
  { _id := old._id
    name := b.name
    title := b.title
    phone := b.phone
    email := b.email
    location := b.location
    website := b.website
    summary := b.summary
    experiences := b.experiences
    education := b.education
    skills := b.skills
    createdAt := b.createdAt.getD old.createdAt
    updatedAt := now }

/-- PUT /api/resumes/:id: answer 404 when no record has the id; otherwise
run the validators (400 on failure, collection unchanged) and on success
replace the record and answer 200 with the new document. -/
def putResume (store : List StoredResume) (now : Nat) (id : String)
    (b : RequestBody) : ApiResponse × List StoredResume :=
  match store.find? (fun r => r._id == id) with
  | none => (.notFound "Resume not found", store)
  | some old =>
      let missing := requiredErrors b
      if missing = [] then
        let r := applyUpdate old now b
        (.okResume r, store.map (fun s => if s._id == id then r else s))
      else
        (.badRequest "Failed to update resume" missing, store)

/-- Insert a record into a list kept in descending updatedAt order. -/
def insertDesc (r : StoredResume) : List StoredResume → List StoredResume
  | [] => [r]
  | x :: xs =>
      if x.updatedAt ≤ r.updatedAt then r :: x :: xs
      else x :: insertDesc r xs

/-- The sort updatedAt descending of GET /api/resumes. -/
def sortByUpdatedAtDesc : List StoredResume → List StoredResume
  | [] => []
  | x :: xs => insertDesc x (sortByUpdatedAtDesc xs)

/-- The data of GET /api/resumes: every stored record, sorted by updatedAt
descending, projected to the summary fields, with no limit. -/
def listData (store : List StoredResume) : List ResumeSummary :=
  (sortByUpdatedAtDesc store).map summarize

/-- GET /api/resumes: answer 200 with the summary listing. -/
def listResumes (store : List StoredResume) : ApiResponse :=
  .okList (listData store)

/-- A value held under a localStorage key: either the serialized document
plus its lastSaved timestamp, or an unparseable blob.  JSON serialization
of a well-formed payload is modelled as the identity, since stringify
followed by parse restores the record. -/
inductive StoredValue
  | payload (doc : ResumeDocument) (lastSaved : String)
  | corrupt (raw : String)
deriving DecidableEq, Repr

/-- The browser localStorage, a partial map from keys to stored values. -/
def LocalStorage : Type := String → Option StoredValue

/-- resumeService.saveToLocalStorage at the default key resumeBackup:
overwrite the key with the document plus a lastSaved timestamp. -/
def saveToLocalStorage (ls : LocalStorage) (resumeData : ResumeDocument)
    (nowIso : String) : LocalStorage :=
  fun k => if k = "resumeBackup" then some (.payload resumeData nowIso)
           else ls k

/-- resumeService.loadFromLocalStorage at the default key resumeBackup:
parse the stored value, returning null when the key is absent and null
(after the caught parse error) when the value is corrupt. -/
def loadFromLocalStorage (ls : LocalStorage) :
    Option (ResumeDocument × String) :=
  match ls "resumeBackup" with
  | some (.payload doc lastSaved) => some (doc, lastSaved)
  | some (.corrupt _) => none
  | none => none

/-- A valid create body without client timestamps, used as concrete
input. -/
def bodyPlain : RequestBody :=
  { name := "Ada"
    title := ""
    phone := ""
    email := "ada@example.com"
    location := ""
    website := ""
    summary := ""
    experiences := []
    education := []
    skills := []
    createdAt := none
    updatedAt := none }

/-- The same body with client-authored timestamp fields. -/
def bodyClientStamped : RequestBody :=
  { bodyPlain with createdAt := some 12345, updatedAt := some 777 }

/-- A localStorage with nothing stored. -/
def emptyStorage : LocalStorage := fun _ => none

/-- A localStorage holding an unparseable blob under the backup key. -/
def corruptStorage : LocalStorage :=
  fun k => if k = "resumeBackup" then some (.corrupt "notjson") else none

/-- Helper: getD commutes with map over an Option. -/
theorem optionGetDMap {α β : Type} (o : Option α) (f : α → β) (a : α) :
    (o.map f).getD (f a) = f (o.getD a) := by
  cases o <;> rfl

/-- C1: the Synchronizer is a frame: a named-section replacement sets
exactly the targeted field to the supplied value and leaves every other
top-level field equal to the old document, and a null-section merge sets
exactly the patch-named fields to the patch values and preserves the
rest. -/
theorem claim1_synchronizer_frame :
    (∀ (d : ResumeDocument) (u : SectionUpdate) (s : SectionName),
       getField (updateResumeData d (.replace u)) s =
         if s = u.sectionName then u.value else getField d s) ∧
    (∀ (d : ResumeDocument) (p : Patch) (s : SectionName),
       getField (updateResumeData d (.merge p)) s =
         (patchField p s).getD (getField d s)) := by
  constructor
  · intro d u s
    cases u <;> cases s <;>
      simp [updateResumeData, applySection, getField,
            SectionUpdate.sectionName, SectionUpdate.value]
  · intro d p s
    cases s <;>
      simp [updateResumeData, mergePatch, getField, patchField, optionGetDMap]

/-- Helper: once the running position has passed the dropped index, the
index filter keeps everything. -/
theorem filterOutIndexGo_of_lt {α : Type} (index : Nat) :
    ∀ (l : List α) (i : Nat), index < i → filterOutIndexGo i index l = l := by
  intro l
  induction l with
  | nil => intro i _; rfl
  | cons x xs ih =>
    intro i h
    rw [filterOutIndexGo]
    have hne : i ≠ index := Nat.ne_of_gt h
    rw [if_pos hne, ih (i + 1) (Nat.lt_succ_of_lt h)]

/-- Helper: filtering out one index removes at most one element. -/
theorem length_filterOutIndexGo {α : Type} (index : Nat) (l : List α) :
    ∀ i, l.length ≤ (filterOutIndexGo i index l).length + 1 := by
  induction l with
  | nil => intro i; simp [filterOutIndexGo]
  | cons x xs ih =>
    intro i
    rw [filterOutIndexGo]
    by_cases h : i = index
    · have hx : ¬ i ≠ index := by simp [h]
      rw [if_neg hx, h,
        filterOutIndexGo_of_lt index xs (index + 1) (Nat.lt_succ_self index)]
      simp
    · rw [if_pos h]
      have := ih (i + 1)
      simp only [List.length_cons]
      omega

/-- Helper: dropping one index from a list of length at least two leaves a
non-empty list. -/
theorem filterOutIndex_ne_nil {α : Type} (l : List α) (index : Nat)
    (h : 1 < l.length) : filterOutIndex l index ≠ [] := by
  have hlen := length_filterOutIndexGo index l 0
  intro hnil
  rw [filterOutIndex] at hnil
  rw [hnil] at hlen
  simp at hlen
  omega

/-- C2: removing an experience entry when only one exists, or an education
entry when only one exists, leaves the document unchanged; consequently
the experiences and education lists never become empty under the remove
operations of the editors. -/
theorem claim2_length_floor :
    (∀ (d : ResumeDocument) (i : Nat),
       d.experiences.length = 1 → removeExperience d i = d) ∧
    (∀ (d : ResumeDocument) (i : Nat),
       d.education.length = 1 → removeEducation d i = d) ∧
    (∀ (d : ResumeDocument) (i : Nat),
       d.experiences ≠ [] → (removeExperience d i).experiences ≠ []) ∧
    (∀ (d : ResumeDocument) (i : Nat),
       d.education ≠ [] → (removeEducation d i).education ≠ []) := by
  refine ⟨?_, ?_, ?_, ?_⟩
  · intro d i h
    simp [removeExperience, h]
  · intro d i h
    simp [removeEducation, h]
  · intro d i h
    rw [removeExperience]
    by_cases hl : 1 < d.experiences.length
    · rw [if_pos hl]
      show filterOutIndex d.experiences i ≠ []
      exact filterOutIndex_ne_nil _ _ hl
    · rw [if_neg hl]
      exact h
  · intro d i h
    rw [removeEducation]
    by_cases hl : 1 < d.education.length
    · rw [if_pos hl]
      show filterOutIndex d.education i ≠ []
      exact filterOutIndex_ne_nil _ _ hl
    · rw [if_neg hl]
      exact h

/-- Witness for C2 at the initial document, whose experiences and
education lists both have length one. -/
theorem claim2_length_floor_witness :
    removeExperience initialResumeData 0 = initialResumeData ∧
    removeEducation initialResumeData 0 = initialResumeData ∧
    (removeExperience initialResumeData 0).experiences ≠ [] ∧
    (removeEducation initialResumeData 0).education ≠ [] :=
  ⟨claim2_length_floor.1 initialResumeData 0 (by decide),
   claim2_length_floor.2.1 initialResumeData 0 (by decide),
   claim2_length_floor.2.2.1 initialResumeData 0 (by decide),
   claim2_length_floor.2.2.2 initialResumeData 0 (by decide)⟩

/-- C3: a skill insertion attempt appends the trimmed input exactly when
it is non-empty after trimming and not already present by exact match, and
otherwise leaves the skills list unchanged; a suggestion click appends the
untrimmed catalog entry under the same presence test. -/
theorem claim3_skill_uniqueness :
    ∀ (d : ResumeDocument) (s : String),
      ((handleAddSkill d s).skills =
        if s.trim = "" ∨ d.skills.contains s.trim then d.skills
        else d.skills ++ [s.trim]) ∧
      ((addSuggestion d s).skills =
        if d.skills.contains s then d.skills else d.skills ++ [s]) := by
  intro d s
  constructor
  · simp only [handleAddSkill]
    by_cases h1 : s.trim = ""
    · simp [h1]
    · by_cases h2 : s.trim ∈ d.skills
      · simp [h1, h2]
      · simp [h1, h2, updateResumeData, applySection]
  · simp only [addSuggestion]
    by_cases h : s ∈ d.skills
    · simp [h]
    · simp [h, updateResumeData, applySection]

/-- C10: removing a responsibility from an experience entry that has
exactly one responsibility leaves the document unchanged, and the remove
operation preserves non-emptiness of every responsibilities list. -/
theorem claim10_responsibilities_floor :
    (∀ (d : ResumeDocument) (i j : Nat) (e : ExperienceEntry),
       d.experiences[i]? = some e → e.responsibilities.length = 1 →
       removeResponsibility d i j = some d) ∧
    (∀ (d : ResumeDocument) (i j : Nat) (r : ResumeDocument),
       removeResponsibility d i j = some r →
       (∀ x ∈ d.experiences, x.responsibilities ≠ []) →
       (∀ x ∈ r.experiences, x.responsibilities ≠ [])) := by
  constructor
  · intro d i j e hget hlen
    unfold removeResponsibility
    rw [hget]
    simp [hlen]
  · intro d i j r hr hall x hx
    unfold removeResponsibility at hr
    split at hr
    · exact absurd hr (by simp)
    · rename_i e hget
      split at hr
      · rename_i hl
        simp only [Option.some.injEq] at hr
        subst hr
        have hx2 :
            x ∈ d.experiences.set i
              { e with responsibilities :=
                  filterOutIndex e.responsibilities j } := hx
        rcases List.mem_or_eq_of_mem_set hx2 with hmem | heq
        · exact hall x hmem
        · subst heq
          show filterOutIndex e.responsibilities j ≠ []
          exact filterOutIndex_ne_nil _ _ hl
      · rename_i hl
        simp only [Option.some.injEq] at hr
        subst hr
        exact hall x hx

/-- Witness for C10 at the initial document, whose single experience has a
single responsibility. -/
theorem claim10_responsibilities_floor_witness :
    removeResponsibility initialResumeData 0 0 = some initialResumeData ∧
    (∀ x ∈ initialResumeData.experiences, x.responsibilities ≠ []) :=
  ⟨claim10_responsibilities_floor.1 initialResumeData 0 0
      { company := "", position := "", duration := "",
        responsibilities := [""] } (by decide) (by decide),
   claim10_responsibilities_floor.2 initialResumeData 0 0 initialResumeData
      (claim10_responsibilities_floor.1 initialResumeData 0 0
        { company := "", position := "", duration := "",
          responsibilities := [""] } (by decide) (by decide))
      (by decide)⟩

/-- C4: a document with empty name or empty email is never sent to the
Store: handleSave returns before issuing any request in both the create
and the update branch, and the client saveResume throws before issuing the
POST. -/
theorem claim4_client_precondition :
    ∀ (resumeId : Option String) (d : ResumeDocument),
      d.name = "" ∨ d.email = "" →
      handleSave resumeId d = none ∧
      saveResumeClient d = .error "Name and email are required fields" := by
  intro rid d h
  constructor
  · rw [handleSave.eq_def, if_pos h]
  · rw [saveResumeClient, if_pos h]

/-- Witness for C4 at the initial document, whose name and email are both
empty, in the create branch. -/
theorem claim4_client_precondition_witness :
    handleSave none initialResumeData = none ∧
    saveResumeClient initialResumeData =
      .error "Name and email are required fields" :=
  claim4_client_precondition none initialResumeData (Or.inl (by decide))

/-- C5: creating a document with empty name and non-empty email fails with
a validation error naming the field name: the client saveResume throws
before issuing the request, and POST /api/resumes answers 400 with the
name path among the missing fields, leaving the collection unchanged. -/
theorem claim5_create_validation :
    ∀ (d : ResumeDocument) (store : List StoredResume) (nextId : String)
      (now : Nat) (b : RequestBody),
      d.name = "" → d.email ≠ "" → b.name = "" → b.email ≠ "" →
      saveResumeClient d = .error "Name and email are required fields" ∧
      (∃ paths, (postResume store nextId now b).1 =
          .badRequest "Failed to save resume" paths ∧ "name" ∈ paths) ∧
      (postResume store nextId now b).2 = store := by
  intro d store nextId now b hd hde hb hbe
  have hmem : "name" ∈ requiredErrors b := by
    rw [requiredErrors, if_pos hb]
    simp
  have hne : requiredErrors b ≠ [] := List.ne_nil_of_mem hmem
  refine ⟨?_, ⟨requiredErrors b, ?_, hmem⟩, ?_⟩
  · rw [saveResumeClient, if_pos (Or.inl hd)]
  · simp only [postResume]
    rw [if_neg hne]
  · simp only [postResume]
    rw [if_neg hne]

/-- Witness for C5 at a concrete document and body with empty name and
non-empty email, against the empty collection. -/
theorem claim5_create_validation_witness :
    saveResumeClient { initialResumeData with email := "a@b.com" } =
      .error "Name and email are required fields" ∧
    (∃ paths,
        (postResume [] "id1" 0 { bodyPlain with name := "" }).1 =
          .badRequest "Failed to save resume" paths ∧ "name" ∈ paths) ∧
    (postResume [] "id1" 0 { bodyPlain with name := "" }).2 = [] :=
  claim5_create_validation { initialResumeData with email := "a@b.com" }
    [] "id1" 0 { bodyPlain with name := "" }
    (by decide) (by decide) (by decide) (by decide)

/-- C6: updating under an identifier matching no stored record answers 404
not-found and leaves the collection unchanged; updating under a matching
identifier with a valid body replaces the stored document by the body
fields under the same identifier and refreshes its updatedAt to the Store
clock. -/
theorem claim6_update_not_found :
    ∀ (store : List StoredResume) (now : Nat) (id : String)
      (b : RequestBody),
      (store.find? (fun r => r._id == id) = none →
        putResume store now id b = (.notFound "Resume not found", store)) ∧
      (∀ old, store.find? (fun r => r._id == id) = some old →
        requiredErrors b = [] →
        putResume store now id b =
          (.okResume (applyUpdate old now b),
           store.map (fun s =>
             if s._id == id then applyUpdate old now b else s)) ∧
        (applyUpdate old now b).updatedAt = now ∧
        (applyUpdate old now b).name = b.name ∧
        (applyUpdate old now b)._id = old._id) := by
  intro store now id b
  constructor
  · intro h
    simp only [putResume]
    rw [h]
  · intro old h hv
    simp only [putResume]
    rw [h]
    simp [hv, applyUpdate]

/-- Witness for C6: the literal identifier nonexistent-id against the
empty collection answers 404, and a one-record collection is updated in
place with a refreshed updatedAt. -/
theorem claim6_update_not_found_witness :
    putResume [] 5 "nonexistent-id" bodyPlain =
      (.notFound "Resume not found", []) ∧
    (putResume [newResume "id1" 1 bodyPlain] 2 "id1" bodyPlain =
      (.okResume (applyUpdate (newResume "id1" 1 bodyPlain) 2 bodyPlain),
       [newResume "id1" 1 bodyPlain].map
         (fun s =>
           if s._id == "id1"
           then applyUpdate (newResume "id1" 1 bodyPlain) 2 bodyPlain
           else s)) ∧
     (applyUpdate (newResume "id1" 1 bodyPlain) 2 bodyPlain).updatedAt = 2 ∧
     (applyUpdate (newResume "id1" 1 bodyPlain) 2 bodyPlain).name =
       bodyPlain.name ∧
     (applyUpdate (newResume "id1" 1 bodyPlain) 2 bodyPlain)._id =
       (newResume "id1" 1 bodyPlain)._id) :=
  ⟨(claim6_update_not_found [] 5 "nonexistent-id" bodyPlain).1 (by decide),
   (claim6_update_not_found [newResume "id1" 1 bodyPlain] 2 "id1"
       bodyPlain).2 (newResume "id1" 1 bodyPlain) (by decide) (by decide)⟩

/-- Helper: inserting into the descending list is a permutation of
consing. -/
theorem insertDesc_perm (r : StoredResume) (l : List StoredResume) :
    List.Perm (insertDesc r l) (r :: l) := by
  induction l with
  | nil => exact List.Perm.refl _
  | cons x xs ih =>
    rw [insertDesc]
    by_cases h : x.updatedAt ≤ r.updatedAt
    · rw [if_pos h]
    · rw [if_neg h]
      exact List.Perm.trans (List.Perm.cons x ih) (List.Perm.swap r x xs)

/-- Helper: the descending sort permutes its input. -/
theorem sortByUpdatedAtDesc_perm (l : List StoredResume) :
    List.Perm (sortByUpdatedAtDesc l) l := by
  induction l with
  | nil => exact List.Perm.refl _
  | cons x xs ih =>
    rw [sortByUpdatedAtDesc]
    exact List.Perm.trans (insertDesc_perm x (sortByUpdatedAtDesc xs))
      (List.Perm.cons x ih)

/-- Helper: inserting into a descending-ordered list keeps it ordered. -/
theorem insertDesc_pairwise (r : StoredResume) (l : List StoredResume)
    (h : l.Pairwise (fun a b => b.updatedAt ≤ a.updatedAt)) :
    (insertDesc r l).Pairwise (fun a b => b.updatedAt ≤ a.updatedAt) := by
  induction l with
  | nil => simp [insertDesc]
  | cons x xs ih =>
    rw [insertDesc]
    rcases List.pairwise_cons.mp h with ⟨hx, hxs⟩
    by_cases hc : x.updatedAt ≤ r.updatedAt
    · rw [if_pos hc]
      refine List.pairwise_cons.mpr ⟨?_, h⟩
      intro b hb
      rcases List.mem_cons.mp hb with rfl | hbxs
      · exact hc
      · exact le_trans (hx b hbxs) hc
    · rw [if_neg hc]
      refine List.pairwise_cons.mpr ⟨?_, ih hxs⟩
      intro b hb
      have hb2 := (insertDesc_perm r xs).mem_iff.mp hb
      rcases List.mem_cons.mp hb2 with rfl | hbxs
      · exact le_of_not_le hc
      · exact hx b hbxs

/-- Helper: the descending sort yields a descending-ordered list. -/
theorem sortByUpdatedAtDesc_pairwise (l : List StoredResume) :
    (sortByUpdatedAtDesc l).Pairwise
      (fun a b => b.updatedAt ≤ a.updatedAt) := by
  induction l with
  | nil => simp [sortByUpdatedAtDesc]
  | cons x xs ih =>
    rw [sortByUpdatedAtDesc]
    exact insertDesc_pairwise x _ ih

/-- C7: the listing answers 200 with the summary projection of every
stored record (a permutation of the whole collection, no pagination),
ordered by updatedAt descending; in particular after creating document A
at clock 1 and document B at clock 2 the listing is the B summary followed
by the A summary. -/
theorem claim7_list_sorted :
    (∀ store : List StoredResume,
       listResumes store = .okList (listData store) ∧
       List.Perm (listData store) (store.map summarize) ∧
       (listData store).Pairwise
         (fun a b => b.updatedAt ≤ a.updatedAt)) ∧
    (listData ((postResume ((postResume [] "idA" 1 bodyPlain).2) "idB" 2
        { bodyPlain with name := "Bob" }).2) =
      [summarize (newResume "idB" 2 { bodyPlain with name := "Bob" }),
       summarize (newResume "idA" 1 bodyPlain)]) := by
  constructor
  · intro store
    refine ⟨rfl, ?_, ?_⟩
    · exact (sortByUpdatedAtDesc_perm store).map summarize
    · exact List.Pairwise.map summarize (fun a b hab => hab)
        (sortByUpdatedAtDesc_pairwise store)
  · decide

/-- C8 counterexample: stored timestamps are not independent of the
request body: at Store clock 999, a create body carrying createdAt 12345
is stored with createdAt 12345, while the same body without timestamp
fields is stored with createdAt 999, so the two stores differ. -/
theorem claim8_timestamps_counterexample :
    ((postResume [] "id1" 999 bodyClientStamped).2.map
        (fun r => r.createdAt) = [12345]) ∧
    ((postResume [] "id1" 999 bodyPlain).2.map
        (fun r => r.createdAt) = [999]) ∧
    (postResume [] "id1" 999 bodyClientStamped).2 ≠
      (postResume [] "id1" 999 bodyPlain).2 := by
  decide

/-- C8 amended: updatedAt is set by the Store at insert and at update and
is independent of any client-supplied updatedAt body field; createdAt is
taken from the Store clock at insert only when the body omits it, a
client-supplied createdAt being stored verbatim on create, and on update
createdAt comes from the body when supplied and is otherwise preserved. -/
theorem claim8_timestamps_amended :
    ∀ (store : List StoredResume) (nextId id : String) (now t : Nat)
      (b : RequestBody),
      (postResume store nextId now { b with updatedAt := some t } =
        postResume store nextId now { b with updatedAt := none }) ∧
      (putResume store now id { b with updatedAt := some t } =
        putResume store now id { b with updatedAt := none }) ∧
      (newResume nextId now b).updatedAt = now ∧
      (newResume nextId now b).createdAt = b.createdAt.getD now ∧
      (∀ old, store.find? (fun r => r._id == id) = some old →
        (applyUpdate old now b).updatedAt = now ∧
        (applyUpdate old now b).createdAt = b.createdAt.getD old.createdAt)
    := by
  intro store nextId id now t b
  refine ⟨rfl, rfl, rfl, rfl, ?_⟩
  intro old _
  exact ⟨rfl, rfl⟩

/-- Witness for C8 amended at a concrete one-record collection and the
client-stamped body. -/
theorem claim8_timestamps_amended_witness :
    StoredResume.updatedAt
        (applyUpdate (newResume "id1" 1 bodyPlain) 2 bodyClientStamped) = 2 ∧
    StoredResume.createdAt
        (applyUpdate (newResume "id1" 1 bodyPlain) 2 bodyClientStamped) =
      (bodyClientStamped.createdAt).getD
        (newResume "id1" 1 bodyPlain).createdAt :=
  (claim8_timestamps_amended [newResume "id1" 1 bodyPlain] "id2" "id1" 2 7
      bodyClientStamped).2.2.2.2 (newResume "id1" 1 bodyPlain) (by decide)

/-- C9: saving to the local fallback and loading it back returns the
document plus the lastSaved timestamp, loading an absent key returns the
empty result, and loading a corrupt payload returns the empty result
without an error. -/
theorem claim9_local_roundtrip :
    (∀ (ls : LocalStorage) (d : ResumeDocument) (ts : String),
       loadFromLocalStorage (saveToLocalStorage ls d ts) = some (d, ts)) ∧
    (∀ ls : LocalStorage, ls "resumeBackup" = none →
       loadFromLocalStorage ls = none) ∧
    (∀ (ls : LocalStorage) (raw : String),
       ls "resumeBackup" = some (.corrupt raw) →
       loadFromLocalStorage ls = none) := by
  refine ⟨?_, ?_, ?_⟩
  · intro ls d ts
    simp [loadFromLocalStorage, saveToLocalStorage]
  · intro ls h
    unfold loadFromLocalStorage
    rw [h]
  · intro ls raw h
    unfold loadFromLocalStorage
    rw [h]

/-- Witness for C9 at the empty storage, the initial document and a
concrete corrupt storage. -/
theorem claim9_local_roundtrip_witness :
    loadFromLocalStorage
        (saveToLocalStorage emptyStorage initialResumeData "t0") =
      some (initialResumeData, "t0") ∧
    loadFromLocalStorage emptyStorage = none ∧
    loadFromLocalStorage corruptStorage = none :=
  ⟨claim9_local_roundtrip.1 emptyStorage initialResumeData "t0",
   claim9_local_roundtrip.2.1 emptyStorage rfl,
   claim9_local_roundtrip.2.2 corruptStorage "notjson" (by decide)⟩
